import Mathlib

/-!
Verification of the ShopperAI IAM policy-evaluation core.

The repository ships the IAM design (policy JSON fixtures, the PayPalAgent
secure-communication process description, and the agent field layout) in its
documentation; the decision logic itself is not present as code in this tree.
The definitions below therefore model the Policy Evaluator, Trust Domain
Matcher and Guarded Endpoint from the specification, while the concrete
policy documents are translated from the JSON fixtures that do appear in the
repository sources.
-/

namespace ShopperIAM

/-- Modelled from the spec: the Identity data object (spec section 3) issued by
the external identity service.  The repository code holding this record
(the Python agent classes) is not in the tree; only its documentation is. -/
structure Identity where
  agentId : String
  trustDomain : String
deriving Repr, DecidableEq

/-- Modelled from the spec: a contextual attribute value usable in policy
conditions (string, number or boolean, mirroring the JSON value kinds). -/
inductive CtxValue where
  | str (s : String)
  | num (n : Int)
  | bool (b : Bool)
deriving Repr, DecidableEq

/-- Request context: a mapping of attribute name to value. -/
abbrev Ctx := List (String × CtxValue)

/-- Modelled from the spec: the effect of a policy statement. -/
inductive Effect where
  | allow
  | deny
deriving Repr, DecidableEq

/-- Modelled from the spec: the typed Condition block of a policy statement,
one list of attribute-to-expected-value pairs per condition operator
(StringEquals, NumberLessThan, BoolEquals, Null). -/
structure ConditionBlock where
  stringEquals : List (String × String)
  numberLessThan : List (String × Int)
  boolEquals : List (String × Bool)
  nullCheck : List (String × Bool)
deriving Repr, DecidableEq

/-- Modelled from the spec: a single policy statement (Sid, Effect, Action
list possibly holding the wildcard, optional Condition block). -/
structure Statement where
  sid : String
  effect : Effect
  action : List String
  condition : Option ConditionBlock
deriving Repr, DecidableEq

/-- Modelled from the spec: a Policy Document, a version tag plus a single
statement, attached to one guarded agent. -/
structure PolicyDocument where
  version : String
  statement : Statement
deriving Repr, DecidableEq

/-- Modelled from the spec: an Access Request, built per call at the guarded
endpoint (spec section 3). -/
structure AccessRequest where
  callerIdentity : Option Identity
  requestedAction : String
  context : Ctx
deriving Repr, DecidableEq

/-- Modelled from the spec: the outcome kind of a Decision. -/
inductive Outcome where
  | allowed
  | deniedUnauthorized
  | deniedPolicyViolation
deriving Repr, DecidableEq

/-- Modelled from the spec: the Decision returned by the Policy Evaluator. -/
structure Decision where
  outcome : Outcome
  reason : String
deriving Repr, DecidableEq

/-- Lookup of a key in an association list of string keys. -/
def lookupKey {α : Type} : List (String × α) → String → Option α
  | [], _ => none
  | (k, v) :: rest, attr => if k = attr then some v else lookupKey rest attr

/-- Lookup of a context attribute. -/
def lookupCtx (ctx : Ctx) (attr : String) : Option CtxValue :=
  lookupKey ctx attr

/-- Context attribute read as a string (absent or non-string gives none). -/
def ctxStr (ctx : Ctx) (attr : String) : Option String :=
  match lookupCtx ctx attr with
  | some (CtxValue.str s) => some s
  | _ => none

/-- Context attribute read as a number (absent or non-numeric gives none). -/
def ctxNum (ctx : Ctx) (attr : String) : Option Int :=
  match lookupCtx ctx attr with
  | some (CtxValue.num n) => some n
  | _ => none

/-- Context attribute read as a boolean (absent or non-boolean gives none). -/
def ctxBool (ctx : Ctx) (attr : String) : Option Bool :=
  match lookupCtx ctx attr with
  | some (CtxValue.bool b) => some b
  | _ => none

/-- Modelled from the spec: the Trust Domain Matcher (spec section 4.2).
False whenever the actual domain is absent or not exactly, case-sensitively,
equal to the required domain; no normalization and no partial matching. -/
def domainMatches (requiredDomain : String) (actualDomain : Option String) : Bool :=
  match actualDomain with
  | none => false
  | some d => d == requiredDomain

/-- Modelled from the spec: the caller trust domain used for the trust-domain
check: the context attribute when supplied, otherwise the identity field. -/
def effectiveTrustDomain (iden : Option Identity) (ctx : Ctx) : Option String :=
  match ctxStr ctx "trust_domain" with
  | some s => some s
  | none => Option.map Identity.trustDomain iden

/-- Modelled from the spec: the required trust domain of a statement, read
from the StringEquals condition entries when the block is present. -/
def requiredTrustDomain : Option ConditionBlock → Option String
  | none => none
  | some cb => lookupKey cb.stringEquals "trust_domain"

/-- Modelled from the spec: the trust-domain check of the evaluator.  Holds
vacuously when no trust domain is required; otherwise the matcher must
accept the caller trust domain. -/
def trustDomainHolds (iden : Identity) (ctx : Ctx)
    (cond : Option ConditionBlock) : Bool :=
  match requiredTrustDomain cond with
  | none => true
  | some d => domainMatches d (effectiveTrustDomain (some iden) ctx)

/-- Modelled from the spec: a StringEquals condition on one attribute,
reusing the trust-domain matcher; the trust-domain attribute falls back to
the identity field when the context omits it. -/
def stringEqualsHolds (iden : Identity) (ctx : Ctx)
    (attr expected : String) : Bool :=
  if attr = "trust_domain" then
    domainMatches expected (effectiveTrustDomain (some iden) ctx)
  else
    domainMatches expected (ctxStr ctx attr)

/-- Modelled from the spec: a NumberLessThan condition; an absent or
non-numeric context value fails the condition rather than throwing. -/
def numberLessThanHolds (ctx : Ctx) (attr : String) (bound : Int) : Bool :=
  match ctxNum ctx attr with
  | some n => decide (n < bound)
  | none => false

/-- Modelled from the spec: a BoolEquals condition; absent or non-boolean
context values fail. -/
def boolEqualsHolds (ctx : Ctx) (attr : String) (expected : Bool) : Bool :=
  match ctxBool ctx attr with
  | some b => b == expected
  | none => false

/-- Modelled from the spec: a Null condition; holds when the absence of the
attribute agrees with the expected boolean. -/
def nullCheckHolds (ctx : Ctx) (attr : String) (expected : Bool) : Bool :=
  (lookupCtx ctx attr).isNone == expected

/-- Modelled from the spec: conjunction of every condition besides the
trust-domain entry (spec section 4.1 step 4). -/
def otherConditionsHold (iden : Identity) (ctx : Ctx) :
    Option ConditionBlock → Bool
  | none => true
  | some cb =>
      (cb.stringEquals.filter (fun p => p.1 != "trust_domain")).all
        (fun p => stringEqualsHolds iden ctx p.1 p.2) &&
      cb.numberLessThan.all (fun p => numberLessThanHolds ctx p.1 p.2) &&
      cb.boolEquals.all (fun p => boolEqualsHolds ctx p.1 p.2) &&
      cb.nullCheck.all (fun p => nullCheckHolds ctx p.1 p.2)

/-- Modelled from the spec: the full conjunctive condition set of a
statement, trust-domain check included; an absent block holds vacuously. -/
def conditionsHold (iden : Identity) (ctx : Ctx)
    (cond : Option ConditionBlock) : Bool :=
  trustDomainHolds iden ctx cond && otherConditionsHold iden ctx cond

/-- Modelled from the spec: action matching against the statement action
list, by exact name or by the wildcard entry. -/
def actionMatches (actions : List String) (requested : String) : Bool :=
  actions.contains requested || actions.contains "*"

/-- Whether a statement effect is Allow. -/
def effectIsAllow : Effect → Bool
  | .allow => true
  | .deny => false

/-- Modelled from the spec: a statement fully matches a request when its
effect is Allow, the action matches and every condition holds. -/
def statementFullMatch (iden : Identity) (req : AccessRequest)
    (st : Statement) : Bool :=
  effectIsAllow st.effect &&
  actionMatches st.action req.requestedAction &&
  conditionsHold iden req.context st.condition

/-- Modelled from the spec: the Policy Evaluator (spec section 4.1).  The
identity-presence check runs first and alone decides the unauthorized
outcome; every other failure is a policy violation; the only allow path is
an Allow statement with matching action and all conditions holding. -/
def evaluate (req : AccessRequest) (policy : PolicyDocument) : Decision :=
  match req.callerIdentity with
  | none =>
      { outcome := .deniedUnauthorized
        reason := "no identity has been issued to this agent" }
  | some iden =>
      let st := policy.statement
      match st.effect with
      | .deny =>
          { outcome := .deniedPolicyViolation
            reason := "request denied by policy statement" }
      | .allow =>
          if !actionMatches st.action req.requestedAction then
            { outcome := .deniedPolicyViolation
              reason := "action not permitted" }
          else if !trustDomainHolds iden req.context st.condition then
            { outcome := .deniedPolicyViolation
              reason := "trust domain mismatch" }
          else if !otherConditionsHold iden req.context st.condition then
            { outcome := .deniedPolicyViolation
              reason := "condition failed" }
          else
            { outcome := .allowed
              reason := "all checks passed" }

/-- Modelled from the spec: the stable rejection category carried by a
guarded-endpoint rejection, distinguishable by tag. -/
inductive RejectionCategory where
  | unauthorizedAccess
  | policyViolation
deriving Repr, DecidableEq

/-- The literal category strings of the source documentation. -/
def RejectionCategory.display : RejectionCategory → String
  | .unauthorizedAccess => "Unauthorized access"
  | .policyViolation => "Policy violation"

/-- Modelled from the spec: the caller-visible result of the guarded
endpoint: success or a categorized rejection. -/
inductive EndpointResult where
  | success (message : String)
  | rejected (category : RejectionCategory) (reason : String)
deriving Repr, DecidableEq

/-- Modelled from the spec: the Guarded Endpoint (spec section 4.3) over a
well-formed policy document: build the access request, run the evaluator,
translate the verdict into the caller-visible result. -/
def guardedEndpoint (callerIdentity : Option Identity) (action : String)
    (ctx : Ctx) (policy : PolicyDocument) : EndpointResult :=
  let d := evaluate { callerIdentity := callerIdentity,
                      requestedAction := action,
                      context := ctx } policy
  match d.outcome with
  | .allowed => .success "Connection successful"
  | .deniedUnauthorized => .rejected .unauthorizedAccess d.reason
  | .deniedPolicyViolation => .rejected .policyViolation d.reason

/-- Modelled from the spec: a raw, JSON-shaped policy statement before
structural validation; every field may be absent and the condition blocks
are keyed by an arbitrary operator name. -/
structure RawStatement where
  sid : Option String
  effect : Option String
  action : Option (List String)
  condition : Option (List (String × List (String × CtxValue)))
deriving Repr, DecidableEq

/-- Modelled from the spec: a raw, JSON-shaped policy document before
structural validation. -/
structure RawPolicy where
  version : Option String
  statement : Option RawStatement
deriving Repr, DecidableEq

/-- Modelled from the spec: the distinct error signal for a malformed policy
document (missing required structural fields or an unrecognized condition
operator), never conflated with a policy violation. -/
inductive PolicyError where
  | missingField (field : String)
  | unknownOperator (opName : String)
  | invalidValue (attr : String)
deriving Repr, DecidableEq

/-- Validation of StringEquals entries: every value must be a string. -/
def parseStringAssign : List (String × CtxValue) →
    Except PolicyError (List (String × String))
  | [] => .ok []
  | (attr, CtxValue.str s) :: rest =>
      match parseStringAssign rest with
      | .ok tail => .ok ((attr, s) :: tail)
      | .error e => .error e
  | (attr, _) :: _ => .error (.invalidValue attr)

/-- Validation of NumberLessThan entries: every value must be a number. -/
def parseNumberAssign : List (String × CtxValue) →
    Except PolicyError (List (String × Int))
  | [] => .ok []
  | (attr, CtxValue.num n) :: rest =>
      match parseNumberAssign rest with
      | .ok tail => .ok ((attr, n) :: tail)
      | .error e => .error e
  | (attr, _) :: _ => .error (.invalidValue attr)

/-- Validation of BoolEquals and Null entries: every value must be a
boolean. -/
def parseBoolAssign : List (String × CtxValue) →
    Except PolicyError (List (String × Bool))
  | [] => .ok []
  | (attr, CtxValue.bool b) :: rest =>
      match parseBoolAssign rest with
      | .ok tail => .ok ((attr, b) :: tail)
      | .error e => .error e
  | (attr, _) :: _ => .error (.invalidValue attr)

/-- The empty condition block. -/
def emptyConditionBlock : ConditionBlock :=
  { stringEquals := [], numberLessThan := [], boolEquals := [], nullCheck := [] }

/-- Modelled from the spec: validation of a raw Condition object into the
closed set of operators; an unrecognized operator name is a malformed-policy
error rather than a silently ignored key. -/
def parseConditionEntries : List (String × List (String × CtxValue)) →
    Except PolicyError ConditionBlock
  | [] => .ok emptyConditionBlock
  | (opName, assigns) :: rest =>
      match parseConditionEntries rest with
      | .error e => .error e
      | .ok cb =>
          if opName = "StringEquals" then
            match parseStringAssign assigns with
            | .ok l => .ok { cb with stringEquals := l ++ cb.stringEquals }
            | .error e => .error e
          else if opName = "NumberLessThan" then
            match parseNumberAssign assigns with
            | .ok l => .ok { cb with numberLessThan := l ++ cb.numberLessThan }
            | .error e => .error e
          else if opName = "BoolEquals" then
            match parseBoolAssign assigns with
            | .ok l => .ok { cb with boolEquals := l ++ cb.boolEquals }
            | .error e => .error e
          else if opName = "Null" then
            match parseBoolAssign assigns with
            | .ok l => .ok { cb with nullCheck := l ++ cb.nullCheck }
            | .error e => .error e
          else
            .error (.unknownOperator opName)

/-- The recognized effect strings. -/
def parseEffect : String → Except PolicyError Effect
  | "Allow" => .ok .allow
  | "Deny" => .ok .deny
  | _ => .error (.invalidValue "Effect")

/-- Modelled from the spec: structural validation of a raw policy document.
Statement, Effect and Action are required structural fields; Version and Sid
are informational and default to the empty string; the Condition block is
optional. -/
def parsePolicy (raw : RawPolicy) : Except PolicyError PolicyDocument :=
  match raw.statement with
  | none => .error (.missingField "Statement")
  | some rs =>
      match rs.effect with
      | none => .error (.missingField "Effect")
      | some effStr =>
          match parseEffect effStr with
          | .error e => .error e
          | .ok eff =>
              match rs.action with
              | none => .error (.missingField "Action")
              | some acts =>
                  match rs.condition with
                  | none =>
                      .ok { version := raw.version.getD ""
                            statement := { sid := rs.sid.getD ""
                                           effect := eff
                                           action := acts
                                           condition := none } }
                  | some entries =>
                      match parseConditionEntries entries with
                      | .error e => .error e
                      | .ok cb =>
                          .ok { version := raw.version.getD ""
                                statement := { sid := rs.sid.getD ""
                                               effect := eff
                                               action := acts
                                               condition := some cb } }

/-- Modelled from the spec: the guarded-endpoint outcome when the attached
policy is taken as raw configuration: the caller-visible outcomes plus the
operator-facing configuration error, which is still a deny. -/
inductive GuardedOutcome where
  | success (message : String)
  | rejected (category : RejectionCategory) (reason : String)
  | configError (e : PolicyError)
deriving Repr, DecidableEq

/-- Modelled from the spec: the Guarded Endpoint over a raw policy document:
a malformed document is surfaced as a distinct configuration error and the
call is denied; a well-formed document is evaluated as usual. -/
def guardedEndpointRaw (callerIdentity : Option Identity) (action : String)
    (ctx : Ctx) (raw : RawPolicy) : GuardedOutcome :=
  match parsePolicy raw with
  | .error e => .configError e
  | .ok policy =>
      match guardedEndpoint callerIdentity action ctx policy with
      | .success m => .success m
      | .rejected c r => .rejected c r

/-- Modelled from the spec: the per-call states of the guarded endpoint
(spec section 4.3). -/
inductive CallState where
  | received
  | evaluating
  | executing
  | completed
  | rejectedCall
deriving Repr, DecidableEq

/-- Modelled from the spec: the per-call state trace of the guarded
endpoint: the call is received, the evaluator runs, and only an Allowed
verdict reaches the executing state of the sensitive operation. -/
def callTrace (req : AccessRequest) (policy : PolicyDocument) :
    List CallState :=
  [CallState.received, CallState.evaluating] ++
    (match (evaluate req policy).outcome with
     | .allowed => [CallState.executing, CallState.completed]
     | .deniedUnauthorized => [CallState.rejectedCall]
     | .deniedPolicyViolation => [CallState.rejectedCall])

/-- Modelled from the spec: the identity-related fields of an agent object
as documented for the Research Agent (is_valid, identity,
identity_access_policy, aztp_id); the agent class itself is not in the
tree. -/
structure AgentState where
  is_valid : Bool
  identity : Option Identity
  identity_access_policy : Option PolicyDocument
  aztp_id : String
deriving Repr, DecidableEq

/-- Modelled from the spec: the state of a freshly constructed agent: not
validated, no identity, no access policy, empty-string aztp identifier. -/
def AgentState.init : AgentState :=
  { is_valid := false
    identity := none
    identity_access_policy := none
    aztp_id := "" }

/-- Modelled from the spec: the operations an agent performs: the external
secure-connect call that installs an identity, and local work that does not
touch the identity fields. -/
inductive AgentOp where
  | secureConnect (iden : Identity) (aztpId : String) (policy : PolicyDocument)
  | localTask (taskName : String)
deriving Repr, DecidableEq

/-- Modelled from the spec: the agent state transition; only secure-connect
installs an identity, every other operation leaves the identity fields
unchanged. -/
def AgentState.step : AgentState → AgentOp → AgentState
  | _, .secureConnect iden aztpId policy =>
      { is_valid := true
        identity := some iden
        identity_access_policy := some policy
        aztp_id := aztpId }
  | s, .localTask _ => s

/-- Modelled from the spec: identity presence at the guarded endpoint is
represented by a non-empty aztp identifier string, not by a distinct absent
value. -/
def agentHasIdentity (s : AgentState) : Bool :=
  s.aztp_id != ""

/-- CustomerSupportAgent access policy, translated from the JSON fixture in
the repository documentation. -/
def customerSupportPolicy : PolicyDocument :=
  { version := "2025-05-16"
    statement :=
      { sid := "customer-support-policy"
        effect := .allow
        action := ["process_refund", "read_faq", "create_ticket"]
        condition := some
          { stringEquals :=
              [("department", "CustomerSupport"), ("trust_domain", "astha.ai")]
            numberLessThan := [("refund_amount", 500)]
            boolEquals := []
            nullCheck := [] } } }

/-- MarketAgent access policy, translated from the JSON fixture in the
repository documentation. -/
def marketAgentPolicy : PolicyDocument :=
  { version := "2025-05-16"
    statement :=
      { sid := "market-agent-policy"
        effect := .allow
        action := ["market_operations"]
        condition := some
          { stringEquals := [("trust_domain", "marketplace.com")]
            numberLessThan := []
            boolEquals := []
            nullCheck := [] } } }

/-- MaliciousAgent deny-all policy, translated from the JSON fixture in the
repository documentation. -/
def maliciousAgentPolicy : PolicyDocument :=
  { version := "2025-05-16"
    statement :=
      { sid := "fake-agent-policy"
        effect := .deny
        action := ["*"]
        condition := some
          { stringEquals := []
            numberLessThan := []
            boolEquals := []
            nullCheck := [("identity", true)] } } }

/-- An allow-everything policy with no conditions, the adversarial fixture
of the unauthorized-precedence property. -/
def allowAllPolicy : PolicyDocument :=
  { version := "2025-05-16"
    statement :=
      { sid := "allow-all"
        effect := .allow
        action := ["*"]
        condition := none } }

/-- A raw policy document carrying an unrecognized condition operator. -/
def rawUnknownOperatorPolicy : RawPolicy :=
  { version := some "2025-05-16"
    statement := some
      { sid := some "bad-policy"
        effect := some "Allow"
        action := some ["process_refund"]
        condition := some [("StringLike", [("department", CtxValue.str "A")])] } }

/-- A raw policy document missing the required Effect field. -/
def rawMissingEffectPolicy : RawPolicy :=
  { version := some "2025-05-16"
    statement := some
      { sid := some "incomplete-policy"
        effect := none
        action := some ["process_refund"]
        condition := none } }

/-- The evaluator on a request without a caller identity: the unauthorized
decision, with the documented reason. -/
theorem evaluate_none (req : AccessRequest) (policy : PolicyDocument)
    (h : req.callerIdentity = none) :
    evaluate req policy =
      { outcome := .deniedUnauthorized
        reason := "no identity has been issued to this agent" } := by
  simp [evaluate, h]

/-- The evaluator on a request with a present identity never returns the
unauthorized outcome. -/
theorem evaluate_some_not_unauthorized (req : AccessRequest)
    (policy : PolicyDocument) (iden : Identity)
    (h : req.callerIdentity = some iden) :
    (evaluate req policy).outcome ≠ Outcome.deniedUnauthorized := by
  cases heff : policy.statement.effect <;>
  cases hact : actionMatches policy.statement.action req.requestedAction <;>
  cases htd : trustDomainHolds iden req.context policy.statement.condition <;>
  cases hoc : otherConditionsHold iden req.context policy.statement.condition <;>
  simp [evaluate, h, heff, hact, htd, hoc]

/-- The evaluator on a request with a present identity allows exactly the
fully matching statements. -/
theorem evaluate_some_allowed_iff (req : AccessRequest)
    (policy : PolicyDocument) (iden : Identity)
    (h : req.callerIdentity = some iden) :
    (evaluate req policy).outcome = Outcome.allowed ↔
      statementFullMatch iden req policy.statement = true := by
  cases heff : policy.statement.effect <;>
  cases hact : actionMatches policy.statement.action req.requestedAction <;>
  cases htd : trustDomainHolds iden req.context policy.statement.condition <;>
  cases hoc : otherConditionsHold iden req.context policy.statement.condition <;>
  simp [evaluate, statementFullMatch, conditionsHold, effectIsAllow, h,
        heff, hact, htd, hoc]

/-- The evaluator on a request with a present identity returns either the
allowed outcome or a policy violation. -/
theorem evaluate_some_outcome (req : AccessRequest)
    (policy : PolicyDocument) (iden : Identity)
    (h : req.callerIdentity = some iden) :
    (evaluate req policy).outcome = Outcome.allowed ∨
      (evaluate req policy).outcome = Outcome.deniedPolicyViolation := by
  cases heff : policy.statement.effect <;>
  cases hact : actionMatches policy.statement.action req.requestedAction <;>
  cases htd : trustDomainHolds iden req.context policy.statement.condition <;>
  cases hoc : otherConditionsHold iden req.context policy.statement.condition <;>
  simp [evaluate, h, heff, hact, htd, hoc]

/-- A failing trust-domain check forces the full condition set to fail. -/
theorem conditionsHold_false_of_trust (iden : Identity) (ctx : Ctx)
    (cond : Option ConditionBlock)
    (h : trustDomainHolds iden ctx cond = false) :
    conditionsHold iden ctx cond = false := by
  simp [conditionsHold, h]

/-- A failing condition set forces the full statement match to fail. -/
theorem statementFullMatch_false_of_conditions (iden : Identity)
    (req : AccessRequest) (st : Statement)
    (h : conditionsHold iden req.context st.condition = false) :
    statementFullMatch iden req st = false := by
  simp [statementFullMatch, h]

/-- A present identity with a failing statement match is a policy
violation. -/
theorem evaluate_some_violation_of_no_match (req : AccessRequest)
    (policy : PolicyDocument) (iden : Identity)
    (h : req.callerIdentity = some iden)
    (hm : statementFullMatch iden req policy.statement = false) :
    (evaluate req policy).outcome = Outcome.deniedPolicyViolation := by
  rcases evaluate_some_outcome req policy iden h with ha | hv
  · have := (evaluate_some_allowed_iff req policy iden h).mp ha
    rw [hm] at this
    exact absurd this (by simp)
  · exact hv

/-- C1: for every access request whose caller identity is absent, the
evaluator returns DeniedUnauthorized with the no-identity reason, and the
decision is identical for every policy document, so no action-match or
trust-domain check contributes to the verdict. -/
theorem c1_unauthorized_precedence (req : AccessRequest)
    (policy : PolicyDocument) (h : req.callerIdentity = none) :
    evaluate req policy =
      { outcome := .deniedUnauthorized
        reason := "no identity has been issued to this agent" } ∧
    (∀ policy2 : PolicyDocument, evaluate req policy = evaluate req policy2) := by
  refine ⟨evaluate_none req policy h, fun policy2 => ?_⟩
  rw [evaluate_none req policy h, evaluate_none req policy2 h]

/-- Witness for C1: an identity-less request against the allow-everything
policy is still rejected as unauthorized, with the same decision under any
other policy. -/
theorem c1_unauthorized_precedence_witness :
    evaluate { callerIdentity := none, requestedAction := "create_paypal_order",
               context := [] } allowAllPolicy =
      { outcome := .deniedUnauthorized
        reason := "no identity has been issued to this agent" } ∧
    (∀ policy2 : PolicyDocument,
        evaluate { callerIdentity := none,
                   requestedAction := "create_paypal_order",
                   context := [] } allowAllPolicy =
        evaluate { callerIdentity := none,
                   requestedAction := "create_paypal_order",
                   context := [] } policy2) :=
  c1_unauthorized_precedence _ allowAllPolicy rfl

/-- C2: with a present identity, any statement that does not fully match
(wrong effect, unmatched action or a failing condition) yields
DeniedPolicyViolation and never Allowed. -/
theorem c2_fail_closed (req : AccessRequest) (policy : PolicyDocument)
    (iden : Identity) (hid : req.callerIdentity = some iden)
    (hnm : statementFullMatch iden req policy.statement = false) :
    (evaluate req policy).outcome = Outcome.deniedPolicyViolation ∧
    (evaluate req policy).outcome ≠ Outcome.allowed := by
  have hv := evaluate_some_violation_of_no_match req policy iden hid hnm
  exact ⟨hv, by simp [hv]⟩

/-- Witness for C2: a valid support identity requesting an unlisted action
against the customer-support policy is denied as a policy violation. -/
theorem c2_fail_closed_witness :
    (evaluate { callerIdentity := some ⟨"support-agent", "astha.ai"⟩,
                requestedAction := "delete_everything",
                context := [("trust_domain", CtxValue.str "astha.ai")] }
        customerSupportPolicy).outcome = Outcome.deniedPolicyViolation ∧
    (evaluate { callerIdentity := some ⟨"support-agent", "astha.ai"⟩,
                requestedAction := "delete_everything",
                context := [("trust_domain", CtxValue.str "astha.ai")] }
        customerSupportPolicy).outcome ≠ Outcome.allowed :=
  c2_fail_closed _ customerSupportPolicy ⟨"support-agent", "astha.ai"⟩ rfl
    (by decide)

/-- C3: every guarded-endpoint call lands in one of exactly three
caller-visible outcomes; a rejection carries the unauthorized category
precisely when the caller presented no identity, every other rejection is a
policy violation, and the two categories display the documented literal
strings. -/
theorem c3_outcome_categories (callerIdentity : Option Identity)
    (action : String) (ctx : Ctx) (policy : PolicyDocument) :
    ((∃ m, guardedEndpoint callerIdentity action ctx policy =
        EndpointResult.success m) ∨
     (∃ r, guardedEndpoint callerIdentity action ctx policy =
        EndpointResult.rejected RejectionCategory.unauthorizedAccess r) ∨
     (∃ r, guardedEndpoint callerIdentity action ctx policy =
        EndpointResult.rejected RejectionCategory.policyViolation r)) ∧
    (∀ c r, guardedEndpoint callerIdentity action ctx policy =
        EndpointResult.rejected c r →
        (c = RejectionCategory.unauthorizedAccess ↔ callerIdentity = none)) ∧
    (callerIdentity = none →
        guardedEndpoint callerIdentity action ctx policy =
          EndpointResult.rejected RejectionCategory.unauthorizedAccess
            "no identity has been issued to this agent") ∧
    RejectionCategory.display RejectionCategory.unauthorizedAccess =
      "Unauthorized access" ∧
    RejectionCategory.display RejectionCategory.policyViolation =
      "Policy violation" := by
  cases callerIdentity with
  | none =>
      have he := evaluate_none
        { callerIdentity := none, requestedAction := action, context := ctx }
        policy rfl
      refine ⟨?_, ?_, ?_, rfl, rfl⟩
      · right; left
        have hg : guardedEndpoint none action ctx policy =
            EndpointResult.rejected RejectionCategory.unauthorizedAccess
              "no identity has been issued to this agent" := by
          simp [guardedEndpoint, he]
        exact ⟨_, hg⟩
      · intro c r hr
        simp [guardedEndpoint, he] at hr
        obtain ⟨hc, -⟩ := hr
        cases hc
        simp
      · intro _
        simp [guardedEndpoint, he]
  | some iden =>
      have hsome : ({ callerIdentity := some iden, requestedAction := action,
                      context := ctx } : AccessRequest).callerIdentity =
          some iden := rfl
      rcases evaluate_some_outcome _ policy iden hsome with ha | hv
      · refine ⟨?_, ?_, ?_, rfl, rfl⟩
        · left
          have hg : guardedEndpoint (some iden) action ctx policy =
              EndpointResult.success "Connection successful" := by
            simp [guardedEndpoint, ha]
          exact ⟨_, hg⟩
        · intro c r hr
          simp [guardedEndpoint, ha] at hr
        · intro hnone
          exact absurd hnone (by simp)
      · refine ⟨?_, ?_, ?_, rfl, rfl⟩
        · right; right
          have hg : guardedEndpoint (some iden) action ctx policy =
              EndpointResult.rejected RejectionCategory.policyViolation
                (evaluate { callerIdentity := some iden,
                            requestedAction := action,
                            context := ctx } policy).reason := by
            simp [guardedEndpoint, hv]
          exact ⟨_, hg⟩
        · intro c r hr
          simp [guardedEndpoint, hv] at hr
          obtain ⟨hc, -⟩ := hr
          cases hc
          simp
        · intro hnone
          exact absurd hnone (by simp)

/-- Witness for C3: the three-outcome split at a concrete identity-less
call against the allow-everything policy. -/
theorem c3_outcome_categories_witness :
    (∃ m, guardedEndpoint none "create_paypal_order" [] allowAllPolicy =
        EndpointResult.success m) ∨
    (∃ r, guardedEndpoint none "create_paypal_order" [] allowAllPolicy =
        EndpointResult.rejected RejectionCategory.unauthorizedAccess r) ∨
    (∃ r, guardedEndpoint none "create_paypal_order" [] allowAllPolicy =
        EndpointResult.rejected RejectionCategory.policyViolation r) :=
  (c3_outcome_categories none "create_paypal_order" [] allowAllPolicy).1

/-- C4: the trust-domain matcher accepts exactly the present, character-wise
equal domain; consequently a present identity whose caller trust domain
differs in any way from the required domain of the policy is denied as a
policy violation and never allowed. -/
theorem c4_trust_domain_strict :
    (∀ (required : String) (actual : Option String),
        domainMatches required actual = true ↔ actual = some required) ∧
    (∀ (req : AccessRequest) (policy : PolicyDocument) (iden : Identity)
        (d : String),
        req.callerIdentity = some iden →
        requiredTrustDomain policy.statement.condition = some d →
        effectiveTrustDomain (some iden) req.context ≠ some d →
        (evaluate req policy).outcome = Outcome.deniedPolicyViolation ∧
        (evaluate req policy).outcome ≠ Outcome.allowed) := by
  constructor
  · intro required actual
    cases actual with
    | none => simp [domainMatches]
    | some a => simp [domainMatches]
  · intro req policy iden d hid hreq hne
    have htd : trustDomainHolds iden req.context policy.statement.condition
        = false := by
      simp only [trustDomainHolds, hreq]
      cases hx : effectiveTrustDomain (some iden) req.context with
      | none => simp [domainMatches]
      | some s =>
          have hsd : s ≠ d := fun h => hne (by rw [hx, h])
          simp [domainMatches, hsd]
    have hcf := conditionsHold_false_of_trust iden req.context
      policy.statement.condition htd
    have hsm := statementFullMatch_false_of_conditions iden req
      policy.statement hcf
    have hv := evaluate_some_violation_of_no_match req policy iden hid hsm
    exact ⟨hv, by simp [hv]⟩

/-- Witness for C4: an astha.ai identity calling into the marketplace.com
policy is denied as a policy violation. -/
theorem c4_trust_domain_strict_witness :
    (evaluate { callerIdentity := some ⟨"orchestrator", "astha.ai"⟩,
                requestedAction := "market_operations", context := [] }
        marketAgentPolicy).outcome = Outcome.deniedPolicyViolation ∧
    (evaluate { callerIdentity := some ⟨"orchestrator", "astha.ai"⟩,
                requestedAction := "market_operations", context := [] }
        marketAgentPolicy).outcome ≠ Outcome.allowed :=
  c4_trust_domain_strict.2 _ marketAgentPolicy ⟨"orchestrator", "astha.ai"⟩
    "marketplace.com" rfl (by decide) (by decide)

/-- C5: a present identity whose trust domain is the empty string fails the
trust-domain check of a policy requiring a non-empty domain, giving
DeniedPolicyViolation; a present identity never gives DeniedUnauthorized. -/
theorem c5_empty_trust_domain (req : AccessRequest) (policy : PolicyDocument)
    (iden : Identity) (d : String)
    (hid : req.callerIdentity = some iden)
    (hdom : iden.trustDomain = "")
    (hctx : ctxStr req.context "trust_domain" = none)
    (hreq : requiredTrustDomain policy.statement.condition = some d)
    (hne : d ≠ "") :
    (evaluate req policy).outcome = Outcome.deniedPolicyViolation ∧
    (evaluate req policy).outcome ≠ Outcome.deniedUnauthorized := by
  have heffd : effectiveTrustDomain (some iden) req.context = some "" := by
    simp [effectiveTrustDomain, hctx, hdom]
  have htd : trustDomainHolds iden req.context policy.statement.condition
      = false := by
    simp only [trustDomainHolds, hreq, heffd, domainMatches]
    simp
    exact fun h => hne h.symm
  have hcf := conditionsHold_false_of_trust iden req.context
    policy.statement.condition htd
  have hsm := statementFullMatch_false_of_conditions iden req
    policy.statement hcf
  exact ⟨evaluate_some_violation_of_no_match req policy iden hid hsm,
    evaluate_some_not_unauthorized req policy iden hid⟩

/-- Witness for C5: an identity with an empty trust domain calling into the
marketplace.com policy is a policy violation, not an unauthorized
rejection. -/
theorem c5_empty_trust_domain_witness :
    (evaluate { callerIdentity := some ⟨"empty-agent", ""⟩,
                requestedAction := "market_operations", context := [] }
        marketAgentPolicy).outcome = Outcome.deniedPolicyViolation ∧
    (evaluate { callerIdentity := some ⟨"empty-agent", ""⟩,
                requestedAction := "market_operations", context := [] }
        marketAgentPolicy).outcome ≠ Outcome.deniedUnauthorized :=
  c5_empty_trust_domain _ marketAgentPolicy ⟨"empty-agent", ""⟩
    "marketplace.com" rfl rfl rfl (by decide) (by decide)

/-- C6: for an Allow statement with matching action, the evaluator allows
exactly when the whole condition set holds, any single failing condition
yields a policy violation, and an absent Condition block is vacuously
satisfied. -/
theorem c6_conjunctive_conditions (req : AccessRequest)
    (policy : PolicyDocument) (iden : Identity)
    (hid : req.callerIdentity = some iden)
    (heff : policy.statement.effect = Effect.allow)
    (hact : actionMatches policy.statement.action req.requestedAction = true) :
    ((evaluate req policy).outcome = Outcome.allowed ↔
       conditionsHold iden req.context policy.statement.condition = true) ∧
    (conditionsHold iden req.context policy.statement.condition = false →
       (evaluate req policy).outcome = Outcome.deniedPolicyViolation) ∧
    (policy.statement.condition = none →
       (evaluate req policy).outcome = Outcome.allowed) := by
  have hiff := evaluate_some_allowed_iff req policy iden hid
  have hfm : statementFullMatch iden req policy.statement =
      conditionsHold iden req.context policy.statement.condition := by
    simp [statementFullMatch, heff, effectIsAllow, hact]
  refine ⟨?_, ?_, ?_⟩
  · rw [hiff, hfm]
  · intro hc
    exact evaluate_some_violation_of_no_match req policy iden hid
      (by rw [hfm, hc])
  · intro hcnone
    rw [hiff, hfm, hcnone]
    simp [conditionsHold, trustDomainHolds, requiredTrustDomain,
      otherConditionsHold]

/-- Witness for C6: the customer-support scenario with all conditions
satisfied is allowed. -/
theorem c6_conjunctive_conditions_witness :
    (evaluate { callerIdentity := some ⟨"support-agent", "astha.ai"⟩,
                requestedAction := "process_refund",
                context := [("department", CtxValue.str "CustomerSupport"),
                            ("trust_domain", CtxValue.str "astha.ai"),
                            ("refund_amount", CtxValue.num 100)] }
        customerSupportPolicy).outcome = Outcome.allowed :=
  (c6_conjunctive_conditions _ customerSupportPolicy
      ⟨"support-agent", "astha.ai"⟩ rfl rfl (by decide)).1.mpr (by decide)

/-- C7: a NumberLessThan condition fails whenever the context value is
absent or non-numeric, and any failing NumberLessThan entry of the policy
turns a present-identity request into a policy violation. -/
theorem c7_number_condition :
    (∀ (ctx : Ctx) (attr : String) (bound : Int),
        ctxNum ctx attr = none → numberLessThanHolds ctx attr bound = false) ∧
    (∀ (req : AccessRequest) (policy : PolicyDocument) (iden : Identity)
        (cb : ConditionBlock) (attr : String) (bound : Int),
        req.callerIdentity = some iden →
        policy.statement.condition = some cb →
        (attr, bound) ∈ cb.numberLessThan →
        numberLessThanHolds req.context attr bound = false →
        (evaluate req policy).outcome = Outcome.deniedPolicyViolation) := by
  constructor
  · intro ctx attr bound h
    simp [numberLessThanHolds, h]
  · intro req policy iden cb attr bound hid hcond hmem hfail
    have hall : cb.numberLessThan.all
        (fun p => numberLessThanHolds req.context p.1 p.2) = false := by
      cases hallc : cb.numberLessThan.all
          (fun p => numberLessThanHolds req.context p.1 p.2) with
      | false => rfl
      | true =>
          rw [List.all_eq_true] at hallc
          have hx := hallc (attr, bound) hmem
          simp [hfail] at hx
    have hoc : otherConditionsHold iden req.context
        policy.statement.condition = false := by
      rw [hcond]
      simp [otherConditionsHold, hall]
    have hcf : conditionsHold iden req.context policy.statement.condition
        = false := by
      simp [conditionsHold, hoc]
    have hsm := statementFullMatch_false_of_conditions iden req
      policy.statement hcf
    exact evaluate_some_violation_of_no_match req policy iden hid hsm

/-- Witness for C7: a 600 refund against the less-than-500 policy bound is
a policy violation. -/
theorem c7_number_condition_witness :
    (evaluate { callerIdentity := some ⟨"support-agent", "astha.ai"⟩,
                requestedAction := "process_refund",
                context := [("department", CtxValue.str "CustomerSupport"),
                            ("trust_domain", CtxValue.str "astha.ai"),
                            ("refund_amount", CtxValue.num 600)] }
        customerSupportPolicy).outcome = Outcome.deniedPolicyViolation :=
  c7_number_condition.2 _ customerSupportPolicy
    ⟨"support-agent", "astha.ai"⟩ _ "refund_amount" 500 rfl rfl
    (by decide) (by decide)

/-- C8: a raw policy document that fails structural validation surfaces the
distinct configuration-error signal at the guarded endpoint; it is never
reported as a policy violation and never succeeds, so the call is denied. -/
theorem c8_malformed_policy (callerIdentity : Option Identity)
    (action : String) (ctx : Ctx) (raw : RawPolicy) (e : PolicyError)
    (h : parsePolicy raw = Except.error e) :
    guardedEndpointRaw callerIdentity action ctx raw =
      GuardedOutcome.configError e ∧
    (∀ c r, guardedEndpointRaw callerIdentity action ctx raw ≠
        GuardedOutcome.rejected c r) ∧
    (∀ m, guardedEndpointRaw callerIdentity action ctx raw ≠
        GuardedOutcome.success m) := by
  have hg : guardedEndpointRaw callerIdentity action ctx raw =
      GuardedOutcome.configError e := by
    simp [guardedEndpointRaw, h]
  exact ⟨hg, fun c r => by simp [hg], fun m => by simp [hg]⟩

/-- Witness for C8: the fixture with the unrecognized StringLike operator
is surfaced as a configuration error, not as a policy violation. -/
theorem c8_malformed_policy_witness :
    guardedEndpointRaw (some ⟨"support-agent", "astha.ai"⟩) "process_refund"
      [] rawUnknownOperatorPolicy =
      GuardedOutcome.configError (PolicyError.unknownOperator "StringLike") ∧
    (∀ c r, guardedEndpointRaw (some ⟨"support-agent", "astha.ai"⟩)
        "process_refund" [] rawUnknownOperatorPolicy ≠
        GuardedOutcome.rejected c r) ∧
    (∀ m, guardedEndpointRaw (some ⟨"support-agent", "astha.ai"⟩)
        "process_refund" [] rawUnknownOperatorPolicy ≠
        GuardedOutcome.success m) :=
  c8_malformed_policy _ _ _ rawUnknownOperatorPolicy
    (PolicyError.unknownOperator "StringLike") rfl

/-- C9: in the per-call state machine, the executing state is reachable
exactly through an Allowed verdict, a rejected call never passes through
executing, and evaluation strictly precedes execution in the trace. -/
theorem c9_check_precedes_use (req : AccessRequest)
    (policy : PolicyDocument) :
    (CallState.executing ∈ callTrace req policy ↔
       (evaluate req policy).outcome = Outcome.allowed) ∧
    ((evaluate req policy).outcome ≠ Outcome.allowed →
       callTrace req policy =
         [CallState.received, CallState.evaluating, CallState.rejectedCall]) ∧
    (CallState.executing ∈ callTrace req policy →
       (callTrace req policy).indexOf CallState.evaluating <
         (callTrace req policy).indexOf CallState.executing) := by
  cases h : (evaluate req policy).outcome <;>
    simp [callTrace, h]

/-- Witness for C9: the allowed customer-support call reaches the executing
state. -/
theorem c9_check_precedes_use_witness :
    CallState.executing ∈
      callTrace { callerIdentity := some ⟨"support-agent", "astha.ai"⟩,
                  requestedAction := "process_refund",
                  context := [("department", CtxValue.str "CustomerSupport"),
                              ("trust_domain", CtxValue.str "astha.ai"),
                              ("refund_amount", CtxValue.num 100)] }
        customerSupportPolicy :=
  (c9_check_precedes_use _ customerSupportPolicy).1.mpr (by decide)

/-- C10: a freshly constructed agent is in the unauthenticated state: is
valid is false, the aztp identifier is the empty string, identity and
access policy are absent; only the secure-connect operation installs an
identity, every local operation leaves the state unchanged. -/
theorem c10_agent_initial_state :
    AgentState.init.is_valid = false ∧
    AgentState.init.aztp_id = "" ∧
    AgentState.init.identity = none ∧
    AgentState.init.identity_access_policy = none ∧
    agentHasIdentity AgentState.init = false ∧
    (∀ (s : AgentState) (taskName : String),
        AgentState.step s (AgentOp.localTask taskName) = s) ∧
    (∀ (s : AgentState) (iden : Identity) (aztpId : String)
        (policy : PolicyDocument),
        AgentState.step s (AgentOp.secureConnect iden aztpId policy) =
          { is_valid := true
            identity := some iden
            identity_access_policy := some policy
            aztp_id := aztpId }) :=
  ⟨rfl, rfl, rfl, rfl, rfl, fun _ _ => rfl, fun _ _ _ _ => rfl⟩

end ShopperIAM
